import Mathlib

/-!
# Verification of the TelegramBackup media deduplication and ingestion engine

A shallow embedding, in Lean 4, of the parts of the `telegram_backup`
Python package that the specification's claims are about:

* `utils.sanitize_filename` / `utils.get_backup_dir` (entity directory naming);
* `file_validator.validate_downloaded_file` (post-download validation);
* `telegram_api/media.py`: `check_disk_space_for_file`, `is_retryable_error`,
  the retry loop `download_single_with_retry` and the preflight part of
  `download_single`;
* `processor.check_disk_space` and the batch-flush disk gate of
  `process_entity`;
* `database/operations.save_message_to_db` (messages-table effect);
* `database/media_manager.py`: `find_existing_media_by_params`,
  `find_or_create_media_file`, `save_media_file`.

Python values are embedded as follows: machine integers as `Nat`/`Int`
(SQLite integers and Python ints are unbounded, so no wrap-around is
modelled), `None`-able values as `Option`, the SQLite `media_files` and
`messages` tables as lists of row structures in insertion order, and the
filesystem as the list of existing paths.  Functions of the environment
that the code consults (file hashing, `mimetypes.guess_extension`,
`pymediainfo`, wall-clock timestamps, free disk space) are oracles passed
in as explicit parameters, so every definition is executable.
-/

set_option linter.unusedVariables false

namespace TelegramBackup

/-! ## Python `os.path` on POSIX, modelled on character lists -/

/-- Index of the last occurrence of `c` in `cs`, if any (Python `str.rfind`). -/
def rfindChar (cs : List Char) (c : Char) : Option Nat :=
  match cs with
  | [] => none
  | a :: rest =>
    match rfindChar rest c with
    | some i => some (i + 1)
    | none => if a = c then some 0 else none

/-- `os.path.basename`: everything after the last `'/'`. -/
def pyBasename (s : String) : String :=
  match rfindChar s.data '/' with
  | some i => ⟨s.data.drop (i + 1)⟩
  | none => s

/-- `os.path.dirname`: everything before the last `'/'`, with trailing
slashes stripped unless the result consists only of slashes. -/
def pyDirname (s : String) : String :=
  match rfindChar s.data '/' with
  | none => ""
  | some i =>
    let head := s.data.take (i + 1)
    if head.all (· = '/') then ⟨head⟩
    else ⟨(head.reverse.dropWhile (· = '/')).reverse⟩

/-- `str.startswith`, on character lists. -/
def pyStartsWith (s pre : String) : Bool :=
  pre.data.isPrefixOf s.data

/-- `os.path.isabs` on POSIX. -/
def pyIsAbs (s : String) : Bool :=
  match s.data with
  | '/' :: _ => true
  | _ => false

/-- `os.path.join a b` for a single extra component (POSIX). -/
def pyJoin (a b : String) : String :=
  if pyIsAbs b then b
  else if a = "" then b
  else if a.data.getLast? = some '/' then a ++ b
  else a ++ "/" ++ b

/-- The extension part of `os.path.splitext`: starts at the last `'.'`
that comes after the last `'/'`, provided some earlier character of the
base name is not a dot (so `".bashrc"` has no extension). -/
def pySplitextExt (s : String) : String :=
  let sepIdx : Int := match rfindChar s.data '/' with
    | some i => (i : Int)
    | none => -1
  let dotIdx : Int := match rfindChar s.data '.' with
    | some i => (i : Int)
    | none => -1
  if dotIdx > sepIdx then
    -- skip leading dots of the base name
    let nameStart := (sepIdx + 1).toNat
    let base := (s.data.drop nameStart).take ((dotIdx.toNat) - nameStart)
    if base.any (· ≠ '.') then ⟨s.data.drop dotIdx.toNat⟩ else ""
  else ""

/-- The root part of `os.path.splitext` (the input minus `pySplitextExt`). -/
def pySplitextRoot (s : String) : String :=
  ⟨s.data.take (s.data.length - (pySplitextExt s).data.length)⟩

/-- ASCII lower-casing, as `str.lower` acts on ASCII strings (the code only
lower-cases file extensions). -/
def pyLowerChar (c : Char) : Char :=
  if 'A' ≤ c ∧ c ≤ 'Z' then Char.ofNat (c.toNat + 32) else c

/-- `str.lower` (ASCII fragment). -/
def pyLower (s : String) : String :=
  ⟨s.data.map pyLowerChar⟩

/-- Python `str.strip` whitespace set (the characters relevant here). -/
def pyIsSpace (c : Char) : Bool :=
  c = ' ' ∨ c = '\t' ∨ c = '\n' ∨ c = '\r'

/-- `str.strip`: drop whitespace from both ends. -/
def pyStrip (s : String) : String :=
  ⟨((s.data.dropWhile pyIsSpace).reverse.dropWhile pyIsSpace).reverse⟩

/-- Python's `needle in hay` substring test. -/
def pySubstr (needle hay : List Char) : Bool :=
  match hay with
  | [] => needle.isEmpty
  | _ :: rest => needle.isPrefixOf hay || pySubstr needle rest

/-! ## `utils.sanitize_filename` and `utils.get_backup_dir` -/

/-- Python's `\w` (regex word character) for code points below `0x100`,
per the Unicode word-character property on the Latin-1 range: ASCII
alphanumerics and `'_'`, plus `ª` (`0xAA`), `µ` (`0xB5`), `º` (`0xBA`) and
the Latin-1 letters `0xC0`–`0xFF` except `×` (`0xD7`) and `÷` (`0xF7`).
Code points at `0x100` and above are mapped to `false`; every theorem
below only evaluates this predicate below `0x100`. -/
def pyWordChar (c : Char) : Bool :=
  let n := c.toNat
  (65 ≤ n ∧ n ≤ 90) ∨ (97 ≤ n ∧ n ≤ 122) ∨ (48 ≤ n ∧ n ≤ 57) ∨ n = 95 ∨
    n = 0xAA ∨ n = 0xB5 ∨ n = 0xBA ∨
    (0xC0 ≤ n ∧ n ≤ 0xFF ∧ n ≠ 0xD7 ∧ n ≠ 0xF7)

/-- A character the regex class `[^\w\-_\. ]` does *not* match, i.e. a
character `re.sub` in `sanitize_filename` keeps: a word character, `'-'`
(45), `'_'` (95), `'.'` (46) or `' '` (32). -/
def sanitizeKeeps (c : Char) : Bool :=
  pyWordChar c || c.toNat = 45 || c.toNat = 95 || c.toNat = 46 || c.toNat = 32

/-- `utils.sanitize_filename`: `re.sub(r'[^\w\-_\. ]', '_', filename)`. -/
def sanitize_filename (s : String) : String :=
  ⟨s.data.map (fun c => if sanitizeKeeps c then c else '_')⟩

/-- `config.BACKUP_DIR`. -/
def BACKUP_DIR : String := "backups"

/-- `utils.get_backup_dir`: `os.path.join(BACKUP_DIR, sanitize_filename(f"{entity_id}_{entity_name}"))`. -/
def get_backup_dir (entityId : Int) (entityName : String) : String :=
  pyJoin BACKUP_DIR (sanitize_filename (toString entityId ++ "_" ++ entityName))

/-- Modelled from the spec: the character class `[A-Za-z0-9._ -]` the
specification names for entity-directory sanitization (`'.'` is 46,
`'_'` is 95, `' '` is 32, `'-'` is 45); used to compare the code's
behaviour against the spec's sentence. -/
def specAllowedChar (c : Char) : Bool :=
  let n := c.toNat
  (65 ≤ n ∧ n ≤ 90) ∨ (97 ≤ n ∧ n ≤ 122) ∨ (48 ≤ n ∧ n ≤ 57) ∨
    n = 46 ∨ n = 95 ∨ n = 32 ∨ n = 45

/-! ## `file_validator.validate_downloaded_file` -/

/-- Abstract view of one on-disk file as the validator observes it. -/
structure DiskFile where
  /-- `os.path.exists` -/
  present : Bool
  /-- `os.path.getsize` succeeds (the `try` at the top of the validator) -/
  sizeOk : Bool
  /-- `os.path.getsize` result -/
  size : Nat
  /-- first 12 bytes, as read for the magic-byte check -/
  header : List Nat
  /-- opening/reading the file for the magic-byte check succeeds -/
  readOk : Bool
  deriving Repr, DecidableEq

/-- Byte-list version of `bytes.startswith`. -/
def bytesStartWith (hdr pat : List Nat) : Bool :=
  pat.isPrefixOf hdr

/-- The magic-byte / video-size part of `validate_downloaded_file`,
keyed on the lower-cased extension of the path. -/
def formatCheck (f : DiskFile) (ext : String) : Bool × Option String :=
  if ext = ".jpg" ∨ ext = ".jpeg" ∨ ext = ".png" ∨ ext = ".gif" ∨ ext = ".webp" then
    if ¬ f.readOk then (false, some "Cannot read file for validation")
    else if ext = ".jpg" ∨ ext = ".jpeg" then
      if ¬ bytesStartWith f.header [0xFF, 0xD8, 0xFF] then
        (false, some "Invalid JPEG magic bytes")
      else (true, none)
    else if ext = ".png" then
      if ¬ bytesStartWith f.header [0x89, 0x50, 0x4E, 0x47, 0x0D, 0x0A, 0x1A, 0x0A] then
        (false, some "Invalid PNG magic bytes")
      else (true, none)
    else if ext = ".gif" then
      if ¬ (bytesStartWith f.header [0x47, 0x49, 0x46, 0x38, 0x37, 0x61] ∨
            bytesStartWith f.header [0x47, 0x49, 0x46, 0x38, 0x39, 0x61]) then
        (false, some "Invalid GIF magic bytes")
      else (true, none)
    else
      if ¬ (bytesStartWith f.header [0x52, 0x49, 0x46, 0x46] ∧
            (f.header.drop 8).take 4 = [0x57, 0x45, 0x42, 0x50]) then
        (false, some "Invalid WebP magic bytes")
      else (true, none)
  else if ext = ".mp4" ∨ ext = ".mov" ∨ ext = ".avi" ∨ ext = ".mkv" ∨ ext = ".webm" then
    if f.size < 1024 then (false, some "Video file too small") else (true, none)
  else (true, none)

/-- `file_validator.validate_downloaded_file`.  `expected = none` models
`expected_size=None`.  The tolerance `int(expected_size * 0.01)` is
embedded as `expected / 100`: for every size below `2 ^ 45` bytes the
IEEE-754 product `expected * 0.01` truncates to exactly
`⌊expected / 100⌋`. -/
def validate_downloaded_file (f : DiskFile) (path : String) (expected : Option Nat) :
    Bool × Option String :=
  if ¬ f.present then (false, some "File does not exist")
  else if ¬ f.sizeOk then (false, some "Cannot get file size")
  else if f.size = 0 then (false, some "File is empty")
  else
    let sizeFail : Bool :=
      match expected with
      | some e =>
        decide (0 < e) && decide ((max 1024 (e / 100) : Nat) < (max f.size e - min f.size e))
      | none => false
    if sizeFail then (false, some "Size mismatch")
    else formatCheck f (pyLower (pySplitextExt path))

/-- `file_validator.validate_file_after_download` (boolean wrapper). -/
def validate_file_after_download (f : DiskFile) (path : String) (expected : Option Nat) : Bool :=
  (validate_downloaded_file f path expected).1

/-! ## Configuration defaults (`config.py`) -/

/-- `MAX_RETRIES` default (`MAX_DOWNLOAD_RETRIES`, default `'3'`). -/
def MAX_RETRIES : Nat := 3

/-- `RETRY_DELAY` default (`'2.0'` seconds); delays are modelled in `ℚ`. -/
def RETRY_DELAY : ℚ := 2

/-- `MAX_FILE_SIZE` default (2 GiB). -/
def MAX_FILE_SIZE : Nat := 2 * 1024 * 1024 * 1024

/-! ## Error classification (`telegram_api/media.py`) -/

/-- The exceptions `download_single` can surface, as the retry loop
distinguishes them.  `other name` stands for any exception type outside
the retryable tuple of `is_retryable_error` (`name` is its
`type(e).__name__`). -/
inductive TgError where
  | floodWait (seconds : Nat)
  | slowModeWait (seconds : Nat)
  | timeoutErr
  | connectionErr
  | osError
  | other (name : String)
  deriving Repr, DecidableEq

/-- `is_retryable_error`: FloodWait / SlowModeWait / Timeout / Connection /
OS errors are retryable, everything else is not. -/
def is_retryable_error : TgError → Bool
  | .other _ => false
  | _ => true

/-- `type(e).__name__` for the modelled exception types. -/
def errorTypeName : TgError → String
  | .floodWait _ => "FloodWaitError"
  | .slowModeWait _ => "SlowModeWaitError"
  | .timeoutErr => "TimeoutError"
  | .connectionErr => "ConnectionError"
  | .osError => "OSError"
  | .other n => n

/-! ## The retry loop `download_single_with_retry`

The inner `download_single` call is abstracted as a script
`attempt : Nat → Option TgError`: `attempt k = none` means the `k`-th
invocation (0-based) returns normally, `attempt k = some e` means it
raises `e`.  The loop is deterministic given the script.  Returning a
`RetryTrace` (instead of raising) models the fact that both failure paths
set `results[msg_id] = (None, None, None)` and return, so the batch run
continues with the other items. -/

/-- The delay slept before the retry that follows an error raised at
retry counter `rc`: `RETRY_DELAY * 2 ** (retry_count - 1)` after
`retry_count` was incremented to `rc + 1`, overridden by `e.seconds` for
`FloodWaitError` and `SlowModeWaitError`. -/
def retryDelay (base : ℚ) (rc : Nat) : TgError → ℚ
  | .floodWait s => (s : ℚ)
  | .slowModeWait s => (s : ℚ)
  | _ => base * 2 ^ rc

/-- Observable outcome of one `download_single_with_retry` run. -/
structure RetryTrace where
  /-- `download_single` eventually returned normally -/
  success : Bool
  /-- number of `download_single` invocations -/
  attempts : Nat
  /-- per retry, the error that triggered it and the `asyncio.sleep` delay -/
  sleeps : List (TgError × ℚ)
  /-- argument of the `stats.record_failure` call, if one was made -/
  recordedFailure : Option String
  /-- number of `stats.record_retry` calls -/
  recordedRetries : Nat
  /-- whether `stats.record_file_with_retry` was called -/
  recordedFileWithRetry : Bool
  deriving Repr, DecidableEq

/-- The `while retry_count <= MAX_RETRIES` loop body.  `rc` is
`retry_count`; `fuel` only bounds the recursion and is passed as
`maxR + 1 - rc`, which the guard keeps positive; the `fuel = 0` branch
corresponds to the (unreachable) code after the loop, which records a
failure with the last error's type name. -/
def retryGo (attempt : Nat → Option TgError) (maxR : Nat) (base : ℚ) :
    Nat → Nat → List (TgError × ℚ) → Option TgError → RetryTrace
  | rc, 0, sleeps, lastErr =>
    { success := false, attempts := rc, sleeps := sleeps,
      recordedFailure := some ((lastErr.map errorTypeName).getD "Unknown"),
      recordedRetries := sleeps.length, recordedFileWithRetry := false }
  | rc, fuel + 1, sleeps, lastErr =>
    match attempt rc with
    | none =>
      { success := true, attempts := rc + 1, sleeps := sleeps,
        recordedFailure := none, recordedRetries := sleeps.length,
        recordedFileWithRetry := !sleeps.isEmpty }
    | some e =>
      if is_retryable_error e = false ∨ maxR ≤ rc then
        { success := false, attempts := rc + 1, sleeps := sleeps,
          recordedFailure := some (errorTypeName e),
          recordedRetries := sleeps.length, recordedFileWithRetry := false }
      else
        retryGo attempt maxR base (rc + 1) fuel
          (sleeps ++ [(e, retryDelay base rc e)]) (some e)

/-- `download_single_with_retry`, run on an attempt script. -/
def download_single_with_retry (attempt : Nat → Option TgError) (maxR : Nat) (base : ℚ) :
    RetryTrace :=
  retryGo attempt maxR base 0 (maxR + 1) [] none

/-! ## Disk-space preflight checks -/

/-- `telegram_api.media.check_disk_space_for_file`.  `free = none` models
`shutil.disk_usage` raising; `free = some f` models `stat.free = f`.
The safety margin is 100 MiB per file. -/
def check_disk_space_for_file (free : Option Nat) (requiredBytes : Nat) : Bool × Nat :=
  match free with
  | some f => (decide (requiredBytes + 100 * 1024 * 1024 < f), f)
  | none => (true, 0)

/-- `processor.check_disk_space`: same shape with a 500 MiB margin,
used once per download batch. -/
def check_disk_space (free : Option Nat) (requiredBytes : Nat) : Bool × Nat :=
  match free with
  | some f => (decide (requiredBytes + 500 * 1024 * 1024 < f), f)
  | none => (true, 0)

/-! ## `download_single`: preflight and post-transfer handling -/

/-- What `message.download_media` and the subsequent filesystem probes
return for one item, abstracted as data: the returned path (`none` models
`download_media` returning `None`), the downloaded file as the validator
and `os.path.getsize` see it, and the hash / mime oracles. -/
structure TransferSpec where
  result : Option String
  file : DiskFile
  hash : Option String
  mime : Option String
  deriving Repr, DecidableEq

/-- Which way one `download_single` call went. -/
inductive SingleOutcome where
  | skippedSizeLimit
  | failedDiskSpace
  | validationFailed
  | downloadedNone
  | success
  deriving Repr, DecidableEq

/-- A `DownloadStats` mutation made during the call. -/
inductive StatsEvent where
  | successEv (size : Nat)
  | failureEv (fileId : String) (errType : String)
  deriving Repr, DecidableEq

/-- Observable effect of one `download_single` call. -/
structure SingleResult where
  outcome : SingleOutcome
  /-- `stats.record_success` / `stats.record_failure` calls, in order -/
  events : List StatsEvent
  /-- files removed with `os.remove` -/
  deleted : List String
  /-- the `(media_file, media_hash, mime_type)` triple stored in `results[msg_id]` -/
  resultsEntry : Option String × Option String × Option String
  deriving Repr, DecidableEq

/-- `download_single` (`telegram_api/media.py`), from the size-limit
check onward; `fileSize` is the declared size extracted from the message,
`free` the disk-usage oracle, `maxFileSize` the `MAX_FILE_SIZE`
configuration.  The size-limit and disk-space branches return before
`download_media` is invoked, which is why they ignore `transfer`. -/
def download_single (msgId : Nat) (fileSize : Nat) (free : Option Nat)
    (maxFileSize : Nat) (transfer : TransferSpec) : SingleResult :=
  if maxFileSize < fileSize then
    { outcome := .skippedSizeLimit, events := [], deleted := [],
      resultsEntry := (none, none, none) }
  else if 0 < fileSize ∧ (check_disk_space_for_file free fileSize).1 = false then
    { outcome := .failedDiskSpace, events := [], deleted := [],
      resultsEntry := (none, none, none) }
  else
    match transfer.result with
    | some path =>
      if validate_file_after_download transfer.file path (some fileSize) = false then
        { outcome := .validationFailed,
          events := [.failureEv (toString msgId) "FileValidationError"],
          deleted := if transfer.file.present then [path] else [],
          resultsEntry := (none, none, none) }
      else
        { outcome := .success,
          events := [.successEv (if transfer.file.present then transfer.file.size else 0)],
          deleted := [],
          resultsEntry := (some path, transfer.hash, transfer.mime) }
    | none =>
      { outcome := .downloadedNone,
        events := [.failureEv (toString msgId) "DownloadReturnedNone"],
        deleted := [],
        resultsEntry := (none, none, none) }

/-! ## The batch-flush disk gate of `process_entity` -/

/-- What the pipeline does when a download batch is about to be flushed. -/
inductive FlushDecision where
  /-- the `break` that leaves the message loop for this entity -/
  | stopEntity
  /-- proceed with `download_media_batch` for the accumulated total -/
  | runBatch (totalBytes : Nat)
  deriving Repr, DecidableEq

/-- `processor.process_entity`, lines 176–186: when the batch thresholds
fire, sum the declared sizes (`fsize or 0`), run `check_disk_space` on
the entity directory, and `break` out of the message loop when it says
the space is insufficient. -/
def batch_flush_gate (batchSizes : List (Option Nat)) (free : Option Nat) : FlushDecision :=
  let total := (batchSizes.map (fun s => s.getD 0)).sum
  if (check_disk_space free total).1 = false then .stopEntity
  else .runBatch total

/-! ## `database/operations.save_message_to_db` (messages-table effect)

The embedding covers lines 122–145 of `operations.py`: the
`INSERT OR IGNORE` into `messages` and the follow-up `UPDATE` that runs
when a non-null `media_file_id` is supplied.  The values derived from the
Telethon message object upstream of the `INSERT` are taken as inputs, and
the child-table writes (`reactions`, `replies`, `buttons`) are out of
scope — they touch other tables and never the `messages` row. -/

/-- One row of the `messages` table (`PRIMARY KEY (id, entity_id)`). -/
structure MsgRow where
  id : Int
  entityId : Int
  date : String
  text : Option String
  mediaType : Option String
  forwarded : Option String
  fromId : String
  views : Int
  senderName : Option String
  replyToMsgId : Option Int
  reactions : Option String
  webPreview : Option String
  extractionTime : String
  isServiceMessage : Bool
  isVoiceMessage : Bool
  isPinned : Bool
  userId : Option String
  fileId : Option String
  fileUniqueId : Option String
  fileSize : Option Nat
  mediaFileId : Option Nat
  deriving Repr, DecidableEq

/-- The values `save_message_to_db` binds in its `INSERT` statement. -/
structure MsgArgs where
  id : Int
  entityId : Int
  date : String
  text : Option String
  mediaType : Option String
  forwarded : Option String
  fromId : String
  views : Option Int
  senderName : Option String
  replyToMsgId : Option Int
  reactions : Option String
  webPreview : Option String
  extractionTime : String
  isServiceMessage : Bool
  isVoiceMessage : Bool
  isPinned : Bool
  userId : Option String
  fileId : Option String
  fileUniqueId : Option String
  fileSize : Option Nat
  mediaFileId : Option Nat
  deriving Repr, DecidableEq

/-- The row the `INSERT` would create (`views if views is not None else 0`). -/
def msgRowOfArgs (a : MsgArgs) : MsgRow :=
  { id := a.id, entityId := a.entityId, date := a.date, text := a.text,
    mediaType := a.mediaType, forwarded := a.forwarded, fromId := a.fromId,
    views := a.views.getD 0, senderName := a.senderName,
    replyToMsgId := a.replyToMsgId, reactions := a.reactions,
    webPreview := a.webPreview, extractionTime := a.extractionTime,
    isServiceMessage := a.isServiceMessage, isVoiceMessage := a.isVoiceMessage,
    isPinned := a.isPinned, userId := a.userId, fileId := a.fileId,
    fileUniqueId := a.fileUniqueId, fileSize := a.fileSize,
    mediaFileId := a.mediaFileId }

/-- The `UPDATE ... SET media_file_id = ?, file_id = COALESCE(?, file_id),
file_unique_id = COALESCE(?, file_unique_id), file_size = COALESCE(?, file_size)`
applied to the matching row (`COALESCE(?, col)` takes the supplied value
when it is non-null and keeps the column otherwise). -/
def applyMediaUpdate (a : MsgArgs) (m : Nat) (r : MsgRow) : MsgRow :=
  { r with mediaFileId := some m,
           fileId := (a.fileId.orElse fun _ => r.fileId),
           fileUniqueId := (a.fileUniqueId.orElse fun _ => r.fileUniqueId),
           fileSize := (a.fileSize.orElse fun _ => r.fileSize) }

/-- `save_message_to_db`, as a transformation of the `messages` table
(rows in insertion order). -/
def save_message_to_db (table : List MsgRow) (a : MsgArgs) : List MsgRow :=
  let t1 :=
    if table.any (fun r => r.id = a.id ∧ r.entityId = a.entityId) then table
    else table ++ [msgRowOfArgs a]
  match a.mediaFileId with
  | none => t1
  | some m =>
    t1.map (fun r =>
      if r.id = a.id ∧ r.entityId = a.entityId then applyMediaUpdate a m r else r)

/-! ## The `media_files` table and metadata extraction -/

/-- One row of `media_files` (`id INTEGER PRIMARY KEY AUTOINCREMENT`,
`file_path UNIQUE NOT NULL`, unique index on `(file_hash, file_size)`). -/
structure MediaRow where
  id : Nat
  filePath : String
  fileHash : String
  fileSize : Nat
  fileUniqueId : Option String := none
  fileId : Option String := none
  accessHash : Option String := none
  mediaType : Option String := none
  mimeType : Option String := none
  fileName : Option String := none
  fileExtension : Option String := none
  duration : Option Nat := none
  width : Option Nat := none
  height : Option Nat := none
  indexedAt : Option String := none
  lastUsedAt : Option String := none
  deriving Repr, DecidableEq

/-- The metadata dictionary shared by `extract_telegram_media_metadata`,
`extract_file_metadata` and `find_existing_media_by_params`. -/
structure MediaMeta where
  fileName : Option String := none
  fileExtension : Option String := none
  fileSize : Nat := 0
  duration : Option Nat := none
  width : Option Nat := none
  height : Option Nat := none
  fileId : Option String := none
  deriving Repr, DecidableEq

/-- Python string truthiness for nullable strings (`None` and `""` are falsy). -/
def pyTruthy : Option String → Bool
  | some s => s ≠ ""
  | none => false

/-- `metadata.normalize_filename_for_search`: drop the extension, drop a
trailing `\s*\(\d+\)\s*` disambiguator, strip whitespace.  `\d` is
embedded as the ASCII digits (all inputs in the theorems are ASCII). -/
def stripTrailingParenNum (cs : List Char) : List Char :=
  let rev := cs.reverse
  let r1 := rev.dropWhile pyIsSpace
  match r1 with
  | ')' :: r2 =>
    let digits := r2.takeWhile fun c => '0' ≤ c ∧ c ≤ '9'
    let r3 := r2.dropWhile fun c => '0' ≤ c ∧ c ≤ '9'
    match r3 with
    | '(' :: r4 => if digits.isEmpty then cs else ((r4.dropWhile pyIsSpace).reverse)
    | _ => cs
  | _ => cs

/-- `normalize_filename_for_search`. -/
def normalize_filename_for_search (s : String) : String :=
  if s = "" then ""
  else pyStrip ⟨stripTrailingParenNum (pySplitextRoot s).data⟩

/-- `find_existing_media_by_params` (`media_manager.py`).  The SQL query
filters by exact size, `duration = ? OR duration IS NULL` when a duration
is given, and matching-or-both-null resolution when both dimensions are
given; rows come back in table (insertion) order. -/
def find_existing_media_by_params (table : List MediaRow) (md : MediaMeta) :
    Option (Nat × String) :=
  if md.fileSize = 0 then none
  else
    let results := table.filter fun r =>
      decide (r.fileSize = md.fileSize) &&
      (match md.duration with
       | some d => decide (r.duration = some d) || decide (r.duration = none)
       | none => true) &&
      (match md.width, md.height with
       | some w, some h =>
         (decide (r.width = some w) && decide (r.height = some h)) ||
         (decide (r.width = none) && decide (r.height = none))
       | _, _ => true)
    match results with
    | [] => none
    | first :: _ =>
      let filtered : Option (Nat × String) :=
        if 1 < results.length ∧ (pyTruthy md.fileName ∨ pyTruthy md.fileId) then
          let byId :=
            match md.fileId with
            | some fid =>
              if fid = "" then none
              else results.find? (fun (r : MediaRow) =>
                match r.fileName with
                | some n => decide (n ≠ "") && pySubstr fid.data n.data
                | none => false)
            | none => none
          match byId with
          | some r => some (r.id, r.filePath)
          | none =>
            match md.fileName with
            | some fn =>
              if fn = "" then none
              else
                let ns := normalize_filename_for_search fn
                match results.find? (fun (r : MediaRow) =>
                  match r.fileName with
                  | some n =>
                    if n = "" then false
                    else
                      let nd := normalize_filename_for_search n
                      decide (ns ≠ "") && decide (nd ≠ "") &&
                        (pySubstr ns.data nd.data || pySubstr nd.data ns.data)
                  | none => false) with
                | some r => some (r.id, r.filePath)
                | none => none
            | none => none
        else none
      match filtered with
      | some x => some x
      | none => some (first.id, first.filePath)

/-! ## Remote media descriptors (`metadata.py`, `telegram_api/media.py`) -/

/-- One entry of `photo.sizes`; the fields mirror the reflective
`hasattr` probes (`size`, and `w`/`h` which Telethon provides together). -/
structure PhotoSize where
  size : Option Nat := none
  dims : Option (Nat × Nat) := none
  deriving Repr, DecidableEq

/-- A document attribute, as the code's `attr._` dispatch sees it. -/
inductive DocAttr where
  | filenameAttr (name : String)
  | videoAttr (duration : Option Nat) (w : Option Nat) (h : Option Nat)
  | audioAttr (duration : Option Nat)
  | otherAttr
  deriving Repr, DecidableEq

/-- A remote media descriptor: the polymorphic Telegram object as a
tagged variant (`MessageMediaPhoto` / `MessageMediaDocument`). -/
inductive TgMedia where
  | photo (sizes : List PhotoSize)
  | document (size : Option Nat) (attributes : List DocAttr) (mimeType : Option String)
  deriving Repr, DecidableEq

/-- `extract_telegram_media_metadata`: the photo branch folds over
`photo.sizes` taking the max declared size and the last dimensions. -/
def photoFold (sizes : List PhotoSize) : Nat × Option Nat × Option Nat :=
  sizes.foldl
    (fun acc ps =>
      let maxSz := match ps.size with
        | some s => max acc.1 s
        | none => acc.1
      match ps.dims with
      | some (w, h) => (maxSz, some w, some h)
      | none => (maxSz, acc.2.1, acc.2.2))
    (0, none, none)

/-- The attribute loop of the document branch: filename, video and audio
attributes update the metadata fields that are present, in list order. -/
def docAttrFold (attrs : List DocAttr) (md : MediaMeta) : MediaMeta :=
  attrs.foldl
    (fun md attr =>
      match attr with
      | .filenameAttr n =>
        let e := pySplitextExt n
        { md with fileName := some n,
                  fileExtension := if e ≠ "" then some (pyLower e) else md.fileExtension }
      | .videoAttr d w h =>
        { md with duration := if d.isSome then d else md.duration,
                  width := if w.isSome then w else md.width,
                  height := if h.isSome then h else md.height }
      | .audioAttr d =>
        { md with duration := if d.isSome then d else md.duration }
      | .otherAttr => md)
    md

/-- `_get_extension_from_mime` (with the `.jpe → .jpg` fix and
lower-casing); `guessExt` is the `mimetypes.guess_extension` oracle. -/
def extFromMime (guessExt : String → Option String) : Option String → Option String
  | none => none
  | some m =>
    if m = "" then none
    else
      match guessExt m with
      | some e => some (if e = ".jpe" then ".jpg" else pyLower e)
      | none => none

/-- `extract_telegram_media_metadata`. -/
def extract_telegram_media_metadata (guessExt : String → Option String) :
    Option TgMedia → MediaMeta
  | none => {}
  | some (.photo sizes) =>
    let folded := if sizes.isEmpty then (0, none, none) else photoFold sizes
    { fileExtension := some ".jpg", fileSize := folded.1,
      width := folded.2.1, height := folded.2.2 }
  | some (.document sz attrs mime) =>
    let md0 : MediaMeta := { fileSize := sz.getD 0 }
    let md1 := if attrs.isEmpty then md0 else docAttrFold attrs md0
    if ¬ pyTruthy md1.fileExtension then
      { md1 with fileExtension := (extFromMime guessExt mime).orElse fun _ => md1.fileExtension }
    else md1

/-- `get_mime_type` (`telegram_api/media.py`): documents answer their
declared mime type, photos answer `image/jpeg`. -/
def get_mime_type : Option TgMedia → Option String
  | some (.document _ _ m) => m
  | some (.photo _) => some "image/jpeg"
  | none => none

/-- The filename-attribute pass of `get_file_extension`: first filename
attribute whose name has a non-empty extension wins. -/
def firstFilenameExt : List DocAttr → Option String
  | [] => none
  | .filenameAttr n :: rest =>
    let e := pySplitextExt n
    if e ≠ "" then some (pyLower e) else firstFilenameExt rest
  | _ :: rest => firstFilenameExt rest

/-- `get_file_extension` (`telegram_api/media.py`). -/
def get_file_extension (guessExt : String → Option String)
    (media : Option TgMedia) (mediaType : Option String) : String :=
  let isPhoto : Bool := match media with
    | some (.photo _) => true
    | _ => false
  if mediaType = some "MessageMediaPhoto" ∨ isPhoto = true then ".jpg"
  else
    match media with
    | some (.document _ attrs mime) =>
      match firstFilenameExt attrs with
      | some e => e
      | none =>
        match extFromMime guessExt mime with
        | some e => e
        | none =>
          match extFromMime guessExt (get_mime_type media) with
          | some e => e
          | none => ".bin"
    | _ =>
      match extFromMime guessExt (get_mime_type media) with
      | some e => e
      | none => ".bin"

/-- `generate_media_filename`: the deterministic `<file_id><ext>` path. -/
def generate_media_filename (guessExt : String → Option String)
    (fileId : Option String) (media : Option TgMedia) (mediaType : Option String)
    (mediaDir : String) : Option String :=
  match fileId with
  | none => none
  | some fid =>
    if fid = "" then none
    else
      let filename := fid ++ get_file_extension guessExt media mediaType
      if mediaDir ≠ "" then some (pyJoin mediaDir filename) else some filename

/-! ## Environment oracles -/

/-- The parts of the environment the media manager consults. -/
structure Env where
  /-- `utils.get_file_hash` (`none` models an unreadable file) -/
  hashOf : String → Option String
  /-- `mimetypes.guess_extension` -/
  guessExt : String → Option String
  /-- `os.path.getsize` -/
  sizeOf : String → Nat
  /-- `pymediainfo` duration / width / height (all `none` when unavailable) -/
  mediaInfo : String → Option Nat × Option Nat × Option Nat
  /-- whether `os.rename old new` succeeds (the code wraps every rename in
  `try/except` and keeps the old path on failure) -/
  renameOk : String → String → Bool
  /-- `cursor.lastrowid` at entry: the rowid of the last successful
  `INSERT` on the shared cursor (`0` when it has never inserted).  A
  successful insert sets it to the new rowid; an ignored
  `INSERT OR IGNORE` leaves it unchanged, so the code's
  `media_file_id > 0` guards read this stale value. -/
  lastRowid : Nat
  /-- `datetime.now(timezone.utc).isoformat()` -/
  now : String

/-- `metadata.extract_file_metadata`, over the filesystem `fs` (the list
of existing paths). -/
def extract_file_metadata (env : Env) (fs : List String) (path : String) : MediaMeta :=
  if path ∈ fs then
    { fileName := some (pyBasename path),
      fileExtension := some (pyLower (pySplitextExt path)),
      fileSize := env.sizeOf path,
      duration := (env.mediaInfo path).1,
      width := (env.mediaInfo path).2.1,
      height := (env.mediaInfo path).2.2 }
  else {}

/-! ## `find_or_create_media_file` (the dedup resolver) -/

/-- `AUTOINCREMENT` rowid for a fresh `media_files` insert. -/
def nextMediaId (table : List MediaRow) : Nat :=
  (table.map (fun r => r.id)).foldr max 0 + 1

/-- The rename-to-deterministic-name block that both the metadata tier
and the remote-id tier of `find_or_create_media_file` run verbatim
(`media_manager.py` lines 499–541 and 558–596): make the stored path
absolute, and if the file exists under a name that does not already start
with `file_id` and has an extension, rename it to `<file_id><ext>` in the
same directory when the target is free, updating the row's `file_path`.
Returns the updated table, filesystem and the path to report. -/
def tryRenameDeterministic (env : Env) (table : List MediaRow) (fs : List String)
    (fid : String) (rowId : Nat) (existingPath : String) (mediaDir : String) :
    List MediaRow × List String × String :=
  let pathAbs :=
    if ¬ pyIsAbs existingPath then
      if mediaDir ≠ "" then pyJoin mediaDir (pyBasename existingPath) else existingPath
    else existingPath
  if pathAbs ∈ fs then
    if ¬ pyStartsWith (pyBasename pathAbs) fid then
      let ext := pySplitextExt pathAbs
      if ext ≠ "" then
        let newPath := pyJoin (pyDirname pathAbs) (fid ++ ext)
        if newPath ∉ fs ∨ newPath = pathAbs then
          if env.renameOk pathAbs newPath then
            (table.map (fun r => if r.id = rowId then { r with filePath := newPath } else r),
             fs.map (fun p => if p = pathAbs then newPath else p),
             newPath)
          else (table, fs, existingPath)
        else (table, fs, existingPath)
      else (table, fs, existingPath)
    else (table, fs, existingPath)
  else (table, fs, existingPath)

/-- What `find_or_create_media_file` returns, together with the table and
filesystem it may have mutated. -/
structure FindResult where
  table : List MediaRow
  fs : List String
  mediaFileId : Option Nat
  path : Option String
  needDownload : Bool
  deriving Repr, DecidableEq

/-- Steps 4 and 5 of `find_or_create_media_file` (reached when the
metadata tier and the remote-id tier both missed, with a truthy `file_id`
and a media object): probe the filesystem for the deterministic
`<file_id><ext>` name and, when its hash can be computed, run
`INSERT OR IGNORE` and read `cursor.lastrowid` into the
`media_file_id > 0` guard.  A successful insert makes `lastrowid` the new
rowid; an ignored insert (conflict on the unique `file_path` or
`(file_hash, file_size)`) leaves it at `Env.lastRowid`, the last
successful insert's rowid on the shared cursor — so the guard passes with
that stale id when one exists and only falls through to the reserve step
on a cursor that has never inserted.  A missing file or an uncomputable
hash always reserves the deterministic path for download. -/
def focProbeOrReserve (env : Env) (table : List MediaRow) (fs : List String)
    (fid : String) (fileSize : Nat) (media : TgMedia) (mediaType : Option String)
    (accessHash : Option String) (mediaDir : String) (md : MediaMeta) : FindResult :=
  match generate_media_filename env.guessExt (some fid) (some media) mediaType mediaDir with
  | none => { table := table, fs := fs, mediaFileId := none, path := none, needDownload := true }
  | some detPath =>
    let reserve : FindResult :=
      { table := table, fs := fs, mediaFileId := none, path := some detPath, needDownload := true }
    if detPath ∈ fs then
      match env.hashOf detPath with
      | some h =>
        if table.any (fun r => decide (r.filePath = detPath) ||
            (decide (r.fileHash = h) && decide (r.fileSize = fileSize))) then
          if 0 < env.lastRowid then
            { table := table, fs := fs, mediaFileId := some env.lastRowid,
              path := some detPath, needDownload := false }
          else reserve
        else
          let newId := nextMediaId table
          let row : MediaRow :=
            { id := newId, filePath := detPath, fileHash := h, fileSize := fileSize,
              fileId := some fid, accessHash := accessHash, mediaType := mediaType,
              fileName := md.fileName, fileExtension := md.fileExtension,
              duration := md.duration, width := md.width, height := md.height,
              indexedAt := some env.now, lastUsedAt := some env.now }
          { table := table ++ [row], fs := fs, mediaFileId := some newId,
            path := some detPath, needDownload := false }
      | none => reserve
    else reserve

/-- `find_or_create_media_file` (`media_manager.py` lines 452–631). -/
def find_or_create_media_file (env : Env) (table : List MediaRow) (fs : List String)
    (fileId : Option String) (fileSize : Nat) (media : Option TgMedia)
    (mediaType : Option String) (accessHash : Option String) (mediaDir : String) :
    FindResult :=
  let md0 := extract_telegram_media_metadata env.guessExt media
  let md : MediaMeta := { md0 with fileSize := fileSize, fileId := fileId }
  let metaHit : Option (Nat × String) :=
    match find_existing_media_by_params table md with
    | some (mid, mpath) => if mid ≠ 0 ∧ mpath ≠ "" then some (mid, mpath) else none
    | none => none
  match metaHit with
  | some (mid, mpath) =>
    let t1 := table.map fun r =>
      if r.id = mid then
        { r with fileId := (r.fileId.orElse fun _ => fileId),
                 accessHash := (r.accessHash.orElse fun _ => accessHash),
                 lastUsedAt := some env.now }
      else r
    let step : List MediaRow × List String × String :=
      match fileId, media with
      | some fid, some _ =>
        if fid ≠ "" then tryRenameDeterministic env t1 fs fid mid mpath mediaDir
        else (t1, fs, mpath)
      | _, _ => (t1, fs, mpath)
    { table := step.1, fs := step.2.1, mediaFileId := some mid,
      path := some step.2.2, needDownload := false }
  | none =>
    match fileId with
    | some fid =>
      if fid = "" then
        { table := table, fs := fs, mediaFileId := none, path := none, needDownload := true }
      else
        match table.find? (fun r => r.fileId = some fid) with
        | some row =>
          let step : List MediaRow × List String × String :=
            match media with
            | some _ =>
              if row.filePath ≠ "" then
                tryRenameDeterministic env table fs fid row.id row.filePath mediaDir
              else (table, fs, row.filePath)
            | none => (table, fs, row.filePath)
          { table := step.1, fs := step.2.1, mediaFileId := some row.id,
            path := some step.2.2, needDownload := false }
        | none =>
          match media with
          | some m => focProbeOrReserve env table fs fid fileSize m mediaType accessHash mediaDir md
          | none =>
            { table := table, fs := fs, mediaFileId := none, path := none, needDownload := true }
    | none =>
      { table := table, fs := fs, mediaFileId := none, path := none, needDownload := true }

/-! ## `save_media_file` (post-download merge) -/

/-- `make_relative_path`: `Path(file_path).resolve().relative_to(base_dir)`
with the original path returned on `ValueError`.  For the already
normalized, symlink-free paths used here this is: strip a leading
`base_dir + "/"` when present, otherwise return the path as is. -/
def make_relative_path (filePath baseDir : String) : String :=
  if pyStartsWith filePath (baseDir ++ "/") then
    ⟨filePath.data.drop (baseDir.data.length + 1)⟩
  else filePath

/-- The `file_path_for_db` computation of `save_media_file`:
`make_relative_path(file_path, entity_backup_dir) if entity_backup_dir
else file_path`. -/
def dbPathFor (entityBackupDir : Option String) (p : String) : String :=
  match entityBackupDir with
  | some d => if d ≠ "" then make_relative_path p d else p
  | none => p

/-- Observable effect of one `save_media_file` call. -/
structure SaveMediaResult where
  table : List MediaRow
  fs : List String
  /-- files removed with `os.remove`, in order -/
  deleted : List String
  /-- the returned `media_file_id` (`none` is Python `None`) -/
  ret : Option Nat
  deriving Repr, DecidableEq

/-- The `get_file_extension(None, media_type)` + fallback-to-splitext
dance that both rename sites of `save_media_file` perform. -/
def deterministicExt (env : Env) (mediaType : Option String) (fallbackPath : String) : String :=
  let ext := get_file_extension env.guessExt none mediaType
  if ext = "" ∨ ext = ".bin" then pySplitextExt fallbackPath else ext

/-- `save_media_file` (`media_manager.py` lines 634–823).  The
`_deduplication_lock` serializes calls, so one call is a plain function
of the state; the hash+size duplicate check, the delete/repoint decision,
the path-exists update, the rename-to-deterministic-name and the final
`INSERT OR IGNORE` follow the source line by line.  As in
`focProbeOrReserve`, `cursor.lastrowid` after an ignored insert keeps the
value `Env.lastRowid` it had at entry, so the `media_file_id == 0`
fallback only runs on a cursor that has never inserted. -/
def save_media_file (env : Env) (table : List MediaRow) (fs : List String)
    (filePath : String) (fileHash0 : Option String) (fileSize0 : Option Nat)
    (fileId : Option String) (accessHash : Option String) (mediaType : Option String)
    (mimeType : Option String) (entityBackupDir : Option String) : SaveMediaResult :=
  if filePath = "" ∨ filePath ∉ fs then
    { table := table, fs := fs, deleted := [], ret := none }
  else
    let h? : Option String :=
      match fileHash0 with
      | some h => if h = "" then env.hashOf filePath else some h
      | none => env.hashOf filePath
    let s : Nat :=
      match fileSize0 with
      | some n => if n = 0 then env.sizeOf filePath else n
      | none => env.sizeOf filePath
    match h? with
    | none => { table := table, fs := fs, deleted := [], ret := none }
    | some h =>
      let pathForDb := dbPathFor entityBackupDir filePath
      let md := extract_file_metadata env fs filePath
      match table.find? (fun r => decide (r.fileHash = h) && decide (r.fileSize = s)) with
      | some drow =>
        if drow.filePath ∉ fs then
          -- duplicate row's file was deleted out of band: keep the new
          -- file and repoint the row at it
          { table := table.map fun r =>
              if r.id = drow.id then
                { r with filePath := pathForDb,
                         fileId := (fileId.orElse fun _ => r.fileId),
                         accessHash := (accessHash.orElse fun _ => r.accessHash),
                         lastUsedAt := some env.now }
              else r,
            fs := fs, deleted := [], ret := some drow.id }
        else
          let fs1 := if filePath ≠ drow.filePath then fs.erase filePath else fs
          let deleted1 := if filePath ≠ drow.filePath then [filePath] else []
          if pyTruthy fileId then
            let t1 := table.map fun r =>
              if r.id = drow.id then
                { r with fileId := (r.fileId.orElse fun _ => fileId),
                         accessHash := (r.accessHash.orElse fun _ => accessHash),
                         lastUsedAt := some env.now }
              else r
            if pyTruthy mediaType then
              let ext := deterministicExt env mediaType drow.filePath
              let detPath := pyJoin (pyDirname drow.filePath) (fileId.getD "" ++ ext)
              if drow.filePath ≠ detPath ∧ detPath ∉ fs1 then
                if env.renameOk drow.filePath detPath then
                  { table := t1.map fun r =>
                      if r.id = drow.id then { r with filePath := detPath } else r,
                    fs := fs1.map fun p => if p = drow.filePath then detPath else p,
                    deleted := deleted1, ret := some drow.id }
                else { table := t1, fs := fs1, deleted := deleted1, ret := some drow.id }
              else { table := t1, fs := fs1, deleted := deleted1, ret := some drow.id }
            else { table := t1, fs := fs1, deleted := deleted1, ret := some drow.id }
          else
            { table := table.map fun r =>
                if r.id = drow.id then { r with lastUsedAt := some env.now } else r,
              fs := fs1, deleted := deleted1, ret := some drow.id }
      | none =>
        match table.find? (fun r => r.filePath = pathForDb) with
        | some prow =>
          -- same path already indexed: overwrite hash/size, fill the rest
          { table := table.map fun r =>
              if r.id = prow.id then
                { r with fileHash := h, fileSize := s,
                         fileId := (fileId.orElse fun _ => r.fileId),
                         accessHash := (accessHash.orElse fun _ => r.accessHash),
                         mediaType := (mediaType.orElse fun _ => r.mediaType),
                         mimeType := (mimeType.orElse fun _ => r.mimeType),
                         fileName := (md.fileName.orElse fun _ => r.fileName),
                         fileExtension := (md.fileExtension.orElse fun _ => r.fileExtension),
                         duration := (md.duration.orElse fun _ => r.duration),
                         width := (md.width.orElse fun _ => r.width),
                         height := (md.height.orElse fun _ => r.height),
                         lastUsedAt := some env.now }
              else r,
            fs := fs, deleted := [], ret := some prow.id }
        | none =>
          let renamed : String × List String :=
            if pyTruthy fileId ∧ pyTruthy mediaType then
              let ext := deterministicExt env mediaType filePath
              let detPath := pyJoin (pyDirname filePath) (fileId.getD "" ++ ext)
              if filePath ≠ detPath ∧ detPath ∉ fs then
                if env.renameOk filePath detPath then
                  (detPath, fs.map fun p => if p = filePath then detPath else p)
                else (filePath, fs)
              else (filePath, fs)
            else (filePath, fs)
          let filePath2 := renamed.1
          let fs2 := renamed.2
          let pathForDb2 := dbPathFor entityBackupDir filePath2
          let md2 := extract_file_metadata env fs2 filePath2
          if table.any (fun r => decide (r.filePath = pathForDb2) ||
              (decide (r.fileHash = h) && decide (r.fileSize = s))) then
            -- insert ignored: `cursor.lastrowid` keeps its previous value;
            -- only the `media_file_id == 0` case runs the hash+size
            -- fallback lookup
            if env.lastRowid = 0 then
              match table.find? (fun r => decide (r.fileHash = h) && decide (r.fileSize = s)) with
              | some r => { table := table, fs := fs2, deleted := [], ret := some r.id }
              | none => { table := table, fs := fs2, deleted := [], ret := some 0 }
            else { table := table, fs := fs2, deleted := [], ret := some env.lastRowid }
          else
            let newId := nextMediaId table
            let row : MediaRow :=
              { id := newId, filePath := pathForDb2, fileHash := h, fileSize := s,
                fileId := fileId, accessHash := accessHash, mediaType := mediaType,
                mimeType := mimeType, fileName := md2.fileName,
                fileExtension := md2.fileExtension, duration := md2.duration,
                width := md2.width, height := md2.height,
                indexedAt := some env.now, lastUsedAt := some env.now }
            { table := table ++ [row], fs := fs2, deleted := [], ret := some newId }

/-! ## The per-item save step of `process_entity` (lines 195–214) -/

/-- State after one completed batch item is merged and its message saved. -/
structure ProcessedItem where
  mediaTable : List MediaRow
  fs : List String
  msgs : List MsgRow
  /-- the `media_file_id` handed to `save_message_to_db` -/
  mediaFileId : Option Nat
  deriving Repr, DecidableEq

/-- For one `(msg, msg_id, fid, ahash, fsize, mtype, fpath)` batch entry
with download result `entry = (media_file, media_hash, mime_type)`:
call `save_media_file` when a file path came back and the file exists,
then persist the message with the resulting media id (or `None`). -/
def process_downloaded_item (env : Env) (mediaTable : List MediaRow) (fs : List String)
    (msgs : List MsgRow) (a : MsgArgs) (fid ahash : Option String) (fsize : Option Nat)
    (mtype mime : Option String) (entityBackupDir : String)
    (entry : Option String × Option String × Option String) : ProcessedItem :=
  let merged : Option Nat × List MediaRow × List String :=
    match entry.1 with
    | some mf =>
      if mf ∈ fs then
        let res := save_media_file env mediaTable fs mf entry.2.1 fsize fid ahash mtype mime
          (some entityBackupDir)
        (res.ret, res.table, res.fs)
      else (none, mediaTable, fs)
    | none => (none, mediaTable, fs)
  let msgs2 := save_message_to_db msgs
    { a with fileId := fid, fileUniqueId := ahash, fileSize := fsize,
             mediaFileId := merged.1 }
  { mediaTable := merged.2.1, fs := merged.2.2, msgs := msgs2, mediaFileId := merged.1 }

/-! # Theorems -/

/-! ## C9: entity directory sanitization -/

/-- On ASCII characters the code's keep-set (`\w` plus `- _ . ` and space)
coincides with the spec's class `[A-Za-z0-9._ -]`. -/
theorem keeps_eq_spec_of_ascii (c : Char) (h : c.toNat < 128) :
    sanitizeKeeps c = specAllowedChar c := by
  rw [Bool.eq_iff_iff]
  simp only [sanitizeKeeps, specAllowedChar, pyWordChar, Bool.or_eq_true, decide_eq_true_eq]
  omega

/-- C9 (counterexample): for `entity_id = 1`, `entity_name = "é"` the
directory name is `1_é` — the non-ASCII letter `é` is outside
`[A-Za-z0-9._ -]` yet is kept, not replaced by `_`, because Python's
`\w` is Unicode-aware; the claimed invariant that every character of the
sanitized name lies in the class or is an underscore fails. -/
theorem backup_dir_sanitization_cex :
    get_backup_dir 1 "é" = "backups/1_é" ∧
    get_backup_dir 1 "é" ≠ "backups/1__" ∧
    ((get_backup_dir 1 "é").data.all fun c => specAllowedChar c || c.toNat = 95) = false := by
  refine ⟨by decide, by decide, by decide⟩

/-- C9 (amended): for entity ids and names whose rendered `{id}_{name}`
string is ASCII, the backup directory is `BACKUP_DIR` joined with that
string with every character outside `[A-Za-z0-9._ -]` replaced by `_`,
and every character of the sanitized name lies in that class; for
non-ASCII names, Python's Unicode-aware `\w` additionally keeps non-ASCII
word characters such as `é`. -/
theorem backup_dir_sanitization (entityId : Int) (entityName : String)
    (hAscii : ∀ c ∈ (toString entityId ++ "_" ++ entityName).data, c.toNat < 128) :
    get_backup_dir entityId entityName =
      pyJoin BACKUP_DIR
        ⟨(toString entityId ++ "_" ++ entityName).data.map
          fun c => if specAllowedChar c then c else '_'⟩ ∧
    ((sanitize_filename (toString entityId ++ "_" ++ entityName)).data.all
      specAllowedChar) = true := by
  have h1 : sanitize_filename (toString entityId ++ "_" ++ entityName) =
      ⟨(toString entityId ++ "_" ++ entityName).data.map
        fun c => if specAllowedChar c then c else '_'⟩ := by
    unfold sanitize_filename
    congr 1
    exact List.map_congr_left fun c hc => by rw [keeps_eq_spec_of_ascii c (hAscii c hc)]
  refine ⟨by rw [get_backup_dir, h1], ?_⟩
  rw [h1]
  simp only [List.all_eq_true, List.mem_map]
  rintro c ⟨c0, hc0, rfl⟩
  by_cases hk : specAllowedChar c0 = true
  · simp [hk]
  · rw [if_neg hk]
    decide

/-- C9 (witness): the amended theorem evaluated at `entity_id = 42`,
`entity_name = "My Chat!"`. -/
theorem backup_dir_sanitization_witness :
    (∀ c ∈ (toString (42 : Int) ++ "_" ++ "My Chat!").data, c.toNat < 128) ∧
    get_backup_dir 42 "My Chat!" =
      pyJoin BACKUP_DIR
        ⟨(toString (42 : Int) ++ "_" ++ "My Chat!").data.map
          fun c => if specAllowedChar c then c else '_'⟩ :=
  ⟨by decide, (backup_dir_sanitization 42 "My Chat!" (by decide)).1⟩

/-! ## C3: size tolerance of the validator -/

/-- C3 (counterexample): a file of 10200 bytes against a declared size of
10000 differs by exactly 2 % (`200 = 2 * 10000 / 100`), yet
`validate_downloaded_file` accepts it: the tolerance is
`max(1024, 1 % of expected)`, and for small files the 1 KiB floor
swallows a 2 % difference.  The claim that a 2 % difference fails for
every expected size is therefore false. -/
theorem validate_two_percent_cex :
    validate_downloaded_file ⟨true, true, 10200, [], true⟩ "f.bin" (some 10000) =
      (true, none) ∧
    10200 - 10000 = 2 * 10000 / 100 := by
  refine ⟨by decide, by decide⟩

/-- C3 (amended): for an existing, non-empty file with declared expected
size `e > 0`, validation succeeds iff `|actual − e| ≤ max(1 KiB, ⌊e/100⌋)`
and the extension-specific format check passes; a difference of at most
0.5 % never trips the size check; a difference of at most 2 % with
`e ≤ 51200` also passes the size check (the 1 KiB floor); a difference of
at least 2 % with `e ≥ 51250` fails validation. -/
theorem validate_size_tolerance (f : DiskFile) (path : String) (e : Nat)
    (hp : f.present = true) (hs : f.sizeOk = true) (hn : f.size ≠ 0) (he : 0 < e) :
    ((validate_downloaded_file f path (some e)).1 = true ↔
      max f.size e - min f.size e ≤ max 1024 (e / 100) ∧
        (formatCheck f (pyLower (pySplitextExt path))).1 = true) ∧
    (200 * (max f.size e - min f.size e) ≤ e →
      (validate_downloaded_file f path (some e)).1 =
        (formatCheck f (pyLower (pySplitextExt path))).1) ∧
    (e ≤ 51200 → 50 * (max f.size e - min f.size e) ≤ e →
      (validate_downloaded_file f path (some e)).1 =
        (formatCheck f (pyLower (pySplitextExt path))).1) ∧
    (51250 ≤ e → e ≤ 50 * (max f.size e - min f.size e) →
      (validate_downloaded_file f path (some e)).1 = false) := by
  have hval : validate_downloaded_file f path (some e) =
      if max 1024 (e / 100) < max f.size e - min f.size e then
        (false, some "Size mismatch")
      else formatCheck f (pyLower (pySplitextExt path)) := by
    unfold validate_downloaded_file
    simp [hp, hs, hn, he]
  by_cases hlt : max 1024 (e / 100) < max f.size e - min f.size e
  · refine ⟨?_, ?_, ?_, ?_⟩
    · rw [hval]; simp [hlt]; omega
    · intro h; omega
    · intro h1 h2; omega
    · intro h1 h2; rw [hval]; simp [hlt]
  · refine ⟨?_, ?_, ?_, ?_⟩
    · rw [hval]; simp [hlt]; intro _; omega
    · intro h; rw [hval]; simp [hlt]
    · intro h1 h2; rw [hval]; simp [hlt]
    · intro h1 h2; omega

/-- C3 (witness): the amended theorem at a 61200-byte file declared as
60000 bytes (a 2 % difference above the 51250-byte threshold): validation
fails. -/
theorem validate_size_tolerance_witness :
    (0 : Nat) < 60000 ∧
    (validate_downloaded_file ⟨true, true, 61200, [], true⟩ "g.bin" (some 60000)).1 = false :=
  ⟨by decide,
    (validate_size_tolerance ⟨true, true, 61200, [], true⟩ "g.bin" 60000 rfl rfl
      (by decide) (by decide)).2.2.2 (by decide) (by decide)⟩

/-! ## C4 / C5: the retry loop -/

/-- Loop invariant of `retryGo`: with a well-formed accumulator the trace
never exceeds `maxR` sleeps, and every sleep at trace index `n` was
triggered by a retryable error and waited exactly `retryDelay base n e`. -/
theorem retryGo_spec (attempt : Nat → Option TgError) (maxR : Nat) (base : ℚ) :
    ∀ (fuel rc : Nat) (acc : List (TgError × ℚ)) (lastErr : Option TgError),
      acc.length = rc → rc ≤ maxR →
      (∀ n e d, acc.get? n = some (e, d) →
        is_retryable_error e = true ∧ d = retryDelay base n e) →
      (retryGo attempt maxR base rc fuel acc lastErr).sleeps.length ≤ maxR ∧
      (∀ n e d, (retryGo attempt maxR base rc fuel acc lastErr).sleeps.get? n = some (e, d) →
        is_retryable_error e = true ∧ d = retryDelay base n e) := by
  intro fuel
  induction fuel with
  | zero =>
    intro rc acc lastErr hlen hrc hacc
    constructor
    · simp only [retryGo]
      omega
    · intro n e d h
      exact hacc n e d (by simpa [retryGo] using h)
  | succ fuel ih =>
    intro rc acc lastErr hlen hrc hacc
    cases hA : attempt rc with
    | none =>
      constructor
      · simp only [retryGo, hA]
        omega
      · intro n e d h
        exact hacc n e d (by simpa [retryGo, hA] using h)
    | some e =>
      by_cases hg : is_retryable_error e = false ∨ maxR ≤ rc
      · constructor
        · simp only [retryGo, hA, if_pos hg]
          omega
        · intro n e' d h
          refine hacc n e' d ?_
          simpa [retryGo, hA, if_pos hg] using h
      · have hre : is_retryable_error e = true := by
          cases hb : is_retryable_error e
          · exact absurd (Or.inl hb) hg
          · rfl
        have hlt : rc < maxR := by omega
        have hstep :
            retryGo attempt maxR base rc (fuel + 1) acc lastErr =
              retryGo attempt maxR base (rc + 1) fuel
                (acc ++ [(e, retryDelay base rc e)]) (some e) := by
          simp [retryGo, hA, if_neg hg]
        rw [hstep]
        refine ih (rc + 1) (acc ++ [(e, retryDelay base rc e)]) (some e)
          (by simp [hlen]) (by omega) ?_
        intro n e' d h
        rcases Nat.lt_trichotomy n acc.length with hcase | hcase | hcase
        · exact hacc n e' d (by rwa [List.get?_append hcase] at h)
        · subst hcase
          rw [List.get?_concat_length] at h
          obtain ⟨he', hd⟩ := Prod.mk.injEq .. ▸ (Option.some.injEq .. ▸ h)
          subst he'
          exact ⟨hre, by rw [← hd, hlen]⟩
        · have : (acc ++ [(e, retryDelay base rc e)]).length ≤ n := by
            simp; omega
          rw [List.get?_eq_none.2 this] at h
          cases h

/-- Exhaustion: when every attempt up to the budget raises a retryable
error, the loop makes exactly `maxR` retries, records a failure and gives
up. -/
theorem retryGo_exhaust (attempt : Nat → Option TgError) (maxR : Nat) (base : ℚ) :
    ∀ (fuel rc : Nat) (acc : List (TgError × ℚ)) (lastErr : Option TgError),
      acc.length = rc → rc ≤ maxR → fuel = maxR + 1 - rc →
      (∀ i, rc ≤ i → i ≤ maxR → ∃ e, attempt i = some e ∧ is_retryable_error e = true) →
      (retryGo attempt maxR base rc fuel acc lastErr).success = false ∧
      (retryGo attempt maxR base rc fuel acc lastErr).sleeps.length = maxR ∧
      (retryGo attempt maxR base rc fuel acc lastErr).recordedFailure.isSome = true := by
  intro fuel
  induction fuel with
  | zero =>
    intro rc acc lastErr hlen hrc hfuel hall
    omega
  | succ fuel ih =>
    intro rc acc lastErr hlen hrc hfuel hall
    obtain ⟨e, hAe, hre⟩ := hall rc le_rfl hrc
    by_cases hmax : maxR ≤ rc
    · have hg : is_retryable_error e = false ∨ maxR ≤ rc := Or.inr hmax
      refine ⟨by simp [retryGo, hAe, if_pos hg], ?_, by simp [retryGo, hAe, if_pos hg]⟩
      simp only [retryGo, hAe, if_pos hg]
      omega
    · have hg : ¬ (is_retryable_error e = false ∨ maxR ≤ rc) := by
        rintro (h | h)
        · rw [hre] at h; cases h
        · exact hmax h
      have hstep :
          retryGo attempt maxR base rc (fuel + 1) acc lastErr =
            retryGo attempt maxR base (rc + 1) fuel
              (acc ++ [(e, retryDelay base rc e)]) (some e) := by
        simp [retryGo, hAe, if_neg hg]
      rw [hstep]
      exact ih (rc + 1) (acc ++ [(e, retryDelay base rc e)]) (some e)
        (by simp [hlen]) (by omega) (by omega)
        (fun i h1 h2 => hall i (by omega) h2)

/-- C4 (counterexample): a `FloodWaitError` is classified retryable, yet
the delay before its retry is the server's 100 s, not
`RETRY_DELAY * 2 ^ 0 = 2 s`, so the exponential-backoff formula does not
hold for every retryable error. -/
theorem retry_backoff_cex :
    (download_single_with_retry (fun _ => some (.floodWait 100)) MAX_RETRIES
        RETRY_DELAY).sleeps.get? 0 = some (.floodWait 100, ((100 : Nat) : ℚ)) ∧
    ((100 : Nat) : ℚ) ≠ RETRY_DELAY * 2 ^ 0 := by
  refine ⟨rfl, by norm_num [RETRY_DELAY]⟩

/-- C4 (amended): an error classified as retryable is retried at most
`max_retries` times; the `n`-th retry is preceded by a delay of
`base * 2 ^ (n-1)` seconds **except** for rate-limit (`FloodWaitError`)
and slow-mode errors, which sleep the server-advised interval instead;
a non-retryable error records a failure immediately with no retry; and
when every attempt within the budget fails retryably, a failure is
recorded and the call returns normally so the batch continues with the
other items. -/
theorem retry_policy (attempt : Nat → Option TgError) (maxR : Nat) (base : ℚ) :
    (download_single_with_retry attempt maxR base).sleeps.length ≤ maxR ∧
    (∀ n e d, (download_single_with_retry attempt maxR base).sleeps.get? n = some (e, d) →
      is_retryable_error e = true ∧
      ((∀ s, e ≠ .floodWait s) → (∀ s, e ≠ .slowModeWait s) → d = base * 2 ^ n)) ∧
    (∀ e, attempt 0 = some e → is_retryable_error e = false →
      download_single_with_retry attempt maxR base =
        { success := false, attempts := 1, sleeps := [],
          recordedFailure := some (errorTypeName e), recordedRetries := 0,
          recordedFileWithRetry := false }) ∧
    ((∀ i, i ≤ maxR → ∃ e, attempt i = some e ∧ is_retryable_error e = true) →
      (download_single_with_retry attempt maxR base).success = false ∧
      (download_single_with_retry attempt maxR base).sleeps.length = maxR ∧
      (download_single_with_retry attempt maxR base).recordedFailure.isSome = true) := by
  have hspec := retryGo_spec attempt maxR base (maxR + 1) 0 [] none rfl (by omega)
    (by intro n e d h; cases h)
  refine ⟨hspec.1, ?_, ?_, ?_⟩
  · intro n e d h
    obtain ⟨hre, hd⟩ := hspec.2 n e d h
    refine ⟨hre, fun hf hs => ?_⟩
    rw [hd]
    cases e with
    | floodWait s => exact absurd rfl (hf s)
    | slowModeWait s => exact absurd rfl (hs s)
    | timeoutErr => rfl
    | connectionErr => rfl
    | osError => rfl
    | other n => rfl
  · intro e h0 hnr
    have hg : is_retryable_error e = false ∨ maxR ≤ 0 := Or.inl hnr
    simp only [download_single_with_retry, retryGo, h0]
    rw [if_pos hg]
    rfl
  · intro hall
    exact retryGo_exhaust attempt maxR base (maxR + 1) 0 [] none rfl (by omega)
      (by omega) (fun i h1 h2 => hall i h2)

/-- C4 (witness): with a script that always times out, the second retry
(index 1) slept `2 * 2 ^ 1 = 4` seconds. -/
theorem retry_policy_witness :
    ((download_single_with_retry (fun _ => some .timeoutErr) 3 2).sleeps.get? 1 =
      some (.timeoutErr, (2 : ℚ) * 2 ^ 1)) ∧ (2 : ℚ) * 2 ^ 1 = 4 :=
  ⟨rfl,
    by
      have h := ((retry_policy (fun _ => some .timeoutErr) 3 2).2.1 1 .timeoutErr
        ((2 : ℚ) * 2 ^ 1) rfl).2 (fun s h => nomatch h) (fun s h => nomatch h)
      rw [h]
      norm_num⟩

/-- C5 (counterexample): with `MAX_RETRIES = 3` and every attempt raising
`FloodWaitError(1)`, the downloader makes exactly three flood-wait
retries and then records a permanent failure: rate-limit retries consume
the `max_retries` budget (the loop increments `retry_count` for them like
for any retryable error), contradicting the claim that they do not
count. -/
theorem rate_limit_budget_cex :
    download_single_with_retry (fun _ => some (.floodWait 1)) MAX_RETRIES RETRY_DELAY =
      { success := false, attempts := 4,
        sleeps := [(.floodWait 1, ((1 : Nat) : ℚ)), (.floodWait 1, ((1 : Nat) : ℚ)),
                   (.floodWait 1, ((1 : Nat) : ℚ))],
        recordedFailure := some "FloodWaitError", recordedRetries := 3,
        recordedFileWithRetry := false } := by
  rfl

/-- C5 (amended): when the remote service signals a rate limit or slow
mode with an advised wait, the downloader sleeps exactly that interval
before retrying — but such retries count against the `max_retries` budget
like any other retry (the trace never exceeds `maxR` sleeps even when all
errors are flood waits). -/
theorem rate_limit_sleep (attempt : Nat → Option TgError) (maxR : Nat) (base : ℚ) :
    (∀ n s d, (download_single_with_retry attempt maxR base).sleeps.get? n =
        some (.floodWait s, d) → d = (s : ℚ)) ∧
    (∀ n s d, (download_single_with_retry attempt maxR base).sleeps.get? n =
        some (.slowModeWait s, d) → d = (s : ℚ)) ∧
    (download_single_with_retry attempt maxR base).sleeps.length ≤ maxR := by
  have hspec := retryGo_spec attempt maxR base (maxR + 1) 0 [] none rfl (by omega)
    (by intro n e d h; cases h)
  exact ⟨fun n s d h => (hspec.2 n _ d h).2,
         fun n s d h => (hspec.2 n _ d h).2,
         hspec.1⟩

/-! ## C6 / C10: disk-space preflight -/

/-- C6 (confirmed): for an item with positive declared size within the
size limit and measurable free space, the transfer requires
`free > declared + 100 MiB`; when the margin is violated the item fails
with no transfer, no stats mutation and a `(None, None, None)` results
entry; and at batch granularity a failed 500 MiB check makes the
pipeline `break` out of the entity's message loop. -/
theorem disk_preflight (msgId fileSize free maxFileSize : Nat) (transfer : TransferSpec)
    (h1 : 0 < fileSize) (h2 : fileSize ≤ maxFileSize) :
    (free ≤ fileSize + 100 * 1024 * 1024 →
      download_single msgId fileSize (some free) maxFileSize transfer =
        { outcome := .failedDiskSpace, events := [], deleted := [],
          resultsEntry := (none, none, none) }) ∧
    ((download_single msgId fileSize (some free) maxFileSize transfer).outcome ≠
        .skippedSizeLimit ∧
      (download_single msgId fileSize (some free) maxFileSize transfer).outcome ≠
        .failedDiskSpace →
      fileSize + 100 * 1024 * 1024 < free) ∧
    (∀ (batchSizes : List (Option Nat)) (free2 : Nat),
      free2 ≤ (batchSizes.map fun s => s.getD 0).sum + 500 * 1024 * 1024 →
      batch_flush_gate batchSizes (some free2) = .stopEntity) := by
  have hfail : ∀ hfree : free ≤ fileSize + 100 * 1024 * 1024,
      download_single msgId fileSize (some free) maxFileSize transfer =
        { outcome := .failedDiskSpace, events := [], deleted := [],
          resultsEntry := (none, none, none) } := by
    intro hfree
    unfold download_single
    rw [if_neg (by omega)]
    rw [if_pos ⟨h1, by simp [check_disk_space_for_file]; omega⟩]
  refine ⟨hfail, ?_, ?_⟩
  · rintro ⟨hs, hd⟩
    by_contra hnot
    push_neg at hnot
    exact hd (by rw [hfail hnot])
  · intro batchSizes free2 hfree2
    unfold batch_flush_gate
    rw [if_pos (by simp [check_disk_space]; omega)]

/-- C6 (witness): declared 1 MiB, 50 MiB free (below the 100 MiB
margin): the item fails before any transfer. -/
theorem disk_preflight_witness :
    (0 : Nat) < 1048576 ∧
    download_single 7 1048576 (some 52428800) 2147483648
        { result := some "media/x.bin", file := ⟨true, true, 1048576, [], true⟩,
          hash := some "h", mime := none } =
      { outcome := .failedDiskSpace, events := [], deleted := [],
        resultsEntry := (none, none, none) } :=
  ⟨by decide,
    (disk_preflight 7 1048576 52428800 2147483648 _ (by decide) (by decide)).1 (by decide)⟩

/-- C10 (confirmed): when `shutil.disk_usage` raises, both preflight
checks report `(True, 0)` and the download proceeds (the item is neither
disk-failed nor size-skipped when within the limit); with a measurable
filesystem the 100 MiB per-item and 500 MiB per-batch margins are
enforced exactly. -/
theorem disk_check_error_fallback (requiredBytes fileSize msgId maxFileSize : Nat)
    (transfer : TransferSpec) (free : Nat) (h2 : fileSize ≤ maxFileSize) :
    check_disk_space_for_file none requiredBytes = (true, 0) ∧
    check_disk_space none requiredBytes = (true, 0) ∧
    (download_single msgId fileSize none maxFileSize transfer).outcome ≠
      .failedDiskSpace ∧
    (download_single msgId fileSize none maxFileSize transfer).outcome ≠
      .skippedSizeLimit ∧
    (check_disk_space_for_file (some free) requiredBytes).1 =
      decide (requiredBytes + 100 * 1024 * 1024 < free) ∧
    (check_disk_space (some free) requiredBytes).1 =
      decide (requiredBytes + 500 * 1024 * 1024 < free) := by
  have hds : (download_single msgId fileSize none maxFileSize transfer).outcome ≠
        SingleOutcome.failedDiskSpace ∧
      (download_single msgId fileSize none maxFileSize transfer).outcome ≠
        SingleOutcome.skippedSizeLimit := by
    unfold download_single
    rw [if_neg (by omega)]
    rw [if_neg (by simp [check_disk_space_for_file])]
    rcases transfer.result with _ | p
    · exact ⟨(fun h => nomatch h), (fun h => nomatch h)⟩
    · dsimp only
      split
      · exact ⟨(fun h => nomatch h), (fun h => nomatch h)⟩
      · exact ⟨(fun h => nomatch h), (fun h => nomatch h)⟩
  exact ⟨rfl, rfl, hds.1, hds.2, rfl, rfl⟩

/-- C10 (witness): a 1 MiB item with an unmeasurable filesystem is not
blocked by either preflight. -/
theorem disk_check_error_fallback_witness :
    (1048576 : Nat) ≤ 2147483648 ∧
    check_disk_space_for_file none 1048576 = (true, 0) ∧
    (download_single 7 1048576 none 2147483648
        { result := none, file := ⟨false, false, 0, [], false⟩,
          hash := none, mime := none }).outcome ≠ .failedDiskSpace :=
  ⟨by decide,
    (disk_check_error_fallback 1048576 1048576 7 2147483648
      { result := none, file := ⟨false, false, 0, [], false⟩,
        hash := none, mime := none } 0 (by decide)).1,
    (disk_check_error_fallback 1048576 1048576 7 2147483648
      { result := none, file := ⟨false, false, 0, [], false⟩,
        hash := none, mime := none } 0 (by decide)).2.2.1⟩

/-! ## C7: size-limit rejection -/

/-- C7 (counterexample): a 2.5 GiB item against the default 2 GiB limit
is skipped with **no** `DownloadStats` mutation at all — `events = []`
shows neither a `SizeLimitExceeded` counter nor any skip/failure is
recorded (the branch only logs and sets the results entry), refuting the
claim that the run statistics are incremented. -/
theorem size_limit_no_stats_cex :
    download_single 1 2684354560 (some (10 * 1024 * 1024 * 1024)) MAX_FILE_SIZE
        { result := none, file := ⟨false, false, 0, [], false⟩,
          hash := none, mime := none } =
      { outcome := .skippedSizeLimit, events := [], deleted := [],
        resultsEntry := (none, none, none) } ∧
    (2684354560 : Nat) = 5 * 1024 * 1024 * 1024 / 2 := by
  refine ⟨rfl, by decide⟩

/-- C7 (amended): an item whose declared size exceeds `max_file_size` is
rejected before any transfer with a `(None, None, None)` results entry,
and its message row is still persisted with a null `media_file_id` —
but no statistics counter of any kind is recorded for the skip. -/
theorem size_limit_skip (env : Env) (msgId fileSize : Nat) (free : Option Nat)
    (maxFileSize : Nat) (transfer : TransferSpec) (mtable : List MediaRow)
    (fs : List String) (msgs : List MsgRow) (a : MsgArgs) (fid ahash : Option String)
    (mt mime : Option String) (dir : String)
    (hbig : maxFileSize < fileSize)
    (hkey : (msgs.any fun r => r.id = a.id ∧ r.entityId = a.entityId) = false) :
    download_single msgId fileSize free maxFileSize transfer =
      { outcome := .skippedSizeLimit, events := [], deleted := [],
        resultsEntry := (none, none, none) } ∧
    process_downloaded_item env mtable fs msgs a fid ahash (some fileSize) mt mime dir
        (none, none, none) =
      { mediaTable := mtable, fs := fs,
        msgs := msgs ++ [msgRowOfArgs
          { a with fileId := fid, fileUniqueId := ahash,
                   fileSize := some fileSize, mediaFileId := none }],
        mediaFileId := none } := by
  constructor
  · unfold download_single
    rw [if_pos hbig]
  · unfold process_downloaded_item save_message_to_db
    simp only []
    rw [if_neg (by simp only [hkey]; exact fun h => by cases h)]

/-- C7 (witness): the amended theorem at the spec's literal scenario
(2.5 GiB declared, 2 GiB limit, one fresh message). -/
theorem size_limit_skip_witness :
    MAX_FILE_SIZE < 2684354560 ∧
    (download_single 1 2684354560 none MAX_FILE_SIZE
        { result := none, file := ⟨false, false, 0, [], false⟩,
          hash := none, mime := none }).resultsEntry = (none, none, none) := by
  refine ⟨by decide, ?_⟩
  rw [(size_limit_skip
    { hashOf := fun _ => none, guessExt := fun _ => none, sizeOf := fun _ => 0,
      mediaInfo := fun _ => (none, none, none), renameOk := fun _ _ => true, lastRowid := 1, now := "T" }
    1 2684354560 none MAX_FILE_SIZE
    { result := none, file := ⟨false, false, 0, [], false⟩, hash := none, mime := none }
    [] [] []
    { id := 1, entityId := 2, date := "d", text := none, mediaType := none,
      forwarded := none, fromId := "u", views := none, senderName := none,
      replyToMsgId := none, reactions := none, webPreview := none,
      extractionTime := "t", isServiceMessage := false, isVoiceMessage := false,
      isPinned := false, userId := none, fileId := none, fileUniqueId := none,
      fileSize := none, mediaFileId := none }
    none none none none "backups/e" (by decide) (by decide)).1]

/-! ## C8: message re-save semantics -/

/-- C8 (counterexample): re-saving a message whose row already exists,
supplying `media_file_id = 5` and `file_id = "Y"`, does not leave the row
unchanged except for the media reference: the stored `file_id = "X"` is
overwritten with `"Y"` (the update uses `COALESCE(?, file_id)`, so a
non-null supplied value wins). -/
theorem save_message_overwrites_cex :
    save_message_to_db
      [{ id := 1, entityId := 2, date := "d", text := none, mediaType := none,
         forwarded := none, fromId := "u", views := 0, senderName := none,
         replyToMsgId := none, reactions := none, webPreview := none,
         extractionTime := "t", isServiceMessage := false, isVoiceMessage := false,
         isPinned := false, userId := none, fileId := some "X", fileUniqueId := none,
         fileSize := none, mediaFileId := none }]
      { id := 1, entityId := 2, date := "d", text := none, mediaType := none,
        forwarded := none, fromId := "u", views := none, senderName := none,
        replyToMsgId := none, reactions := none, webPreview := none,
        extractionTime := "t", isServiceMessage := false, isVoiceMessage := false,
        isPinned := false, userId := none, fileId := some "Y", fileUniqueId := none,
        fileSize := none, mediaFileId := some 5 } =
      [{ id := 1, entityId := 2, date := "d", text := none, mediaType := none,
         forwarded := none, fromId := "u", views := 0, senderName := none,
         replyToMsgId := none, reactions := none, webPreview := none,
         extractionTime := "t", isServiceMessage := false, isVoiceMessage := false,
         isPinned := false, userId := none, fileId := some "Y", fileUniqueId := none,
         fileSize := none, mediaFileId := some 5 }] ∧
    some "X" ≠ some "Y" := by
  refine ⟨by decide, by decide⟩

/-- C8 (amended): when the `(id, entity_id)` key already exists, a
re-save with a null media id leaves the table unchanged; with
`media_file_id = some m` the matching row gets `media_file_id = m` and
its `file_id`, `file_unique_id` and `file_size` are overwritten by the
supplied values when those are non-null (kept otherwise); no row is
added or removed and non-matching rows are untouched. -/
theorem save_message_idempotent (table : List MsgRow) (a : MsgArgs)
    (hkey : (table.any fun r => r.id = a.id ∧ r.entityId = a.entityId) = true) :
    (a.mediaFileId = none → save_message_to_db table a = table) ∧
    (∀ m, a.mediaFileId = some m →
      save_message_to_db table a =
        table.map fun r =>
          if r.id = a.id ∧ r.entityId = a.entityId then applyMediaUpdate a m r else r) := by
  have h1 : save_message_to_db table a =
      match a.mediaFileId with
      | none => table
      | some m =>
        table.map fun r =>
          if r.id = a.id ∧ r.entityId = a.entityId then applyMediaUpdate a m r else r := by
    unfold save_message_to_db
    rw [if_pos hkey]
  exact ⟨fun h => by rw [h1, h], fun m h => by rw [h1, h]⟩

/-- C8 (witness): the amended theorem at a one-row table re-saved with no
media id: the table is unchanged. -/
theorem save_message_idempotent_witness :
    ((List.any
      [({ id := 1, entityId := 2, date := "d", text := none, mediaType := none,
          forwarded := none, fromId := "u", views := 3, senderName := none,
          replyToMsgId := none, reactions := none, webPreview := none,
          extractionTime := "t", isServiceMessage := false, isVoiceMessage := false,
          isPinned := false, userId := none, fileId := none, fileUniqueId := none,
          fileSize := none, mediaFileId := none } : MsgRow)]
      fun r => r.id = 1 ∧ r.entityId = 2) = true) ∧
    save_message_to_db
      [{ id := 1, entityId := 2, date := "d", text := none, mediaType := none,
         forwarded := none, fromId := "u", views := 3, senderName := none,
         replyToMsgId := none, reactions := none, webPreview := none,
         extractionTime := "t", isServiceMessage := false, isVoiceMessage := false,
         isPinned := false, userId := none, fileId := none, fileUniqueId := none,
         fileSize := none, mediaFileId := none }]
      { id := 1, entityId := 2, date := "d9", text := some "again", mediaType := none,
        forwarded := none, fromId := "u", views := some 9, senderName := none,
        replyToMsgId := none, reactions := none, webPreview := none,
        extractionTime := "t9", isServiceMessage := false, isVoiceMessage := false,
        isPinned := false, userId := none, fileId := none, fileUniqueId := none,
        fileSize := none, mediaFileId := none } =
      [{ id := 1, entityId := 2, date := "d", text := none, mediaType := none,
         forwarded := none, fromId := "u", views := 3, senderName := none,
         replyToMsgId := none, reactions := none, webPreview := none,
         extractionTime := "t", isServiceMessage := false, isVoiceMessage := false,
         isPinned := false, userId := none, fileId := none, fileUniqueId := none,
         fileSize := none, mediaFileId := none }] :=
  ⟨by decide, (save_message_idempotent _ _ (by decide)).1 rfl⟩

/-! ## C2: `save_media_file` hash+size merge -/

/-- Mapping a row transformation that preserves `file_hash` and
`file_size` leaves the `(hash, size)` multiset of the table intact. -/
theorem mapPreservesHashSize (table : List MediaRow) (f : MediaRow → MediaRow)
    (hf : ∀ r, (f r).fileHash = r.fileHash ∧ (f r).fileSize = r.fileSize) :
    ((table.map f).map fun r => (r.fileHash, r.fileSize)) =
      table.map fun r => (r.fileHash, r.fileSize) := by
  rw [List.map_map]
  exact List.map_congr_left fun r _ => by
    simp only [Function.comp_apply, (hf r).1, (hf r).2]

/-- C2 (confirmed): merging a completed download whose `(hash, size)`
pair is already indexed never creates a second row: the duplicate row's
id is returned, the table keeps its length and its `(hash, size)`
column values; when the duplicate row's stored path still exists and
differs from the new file's path, the new file is deleted; when the
stored file is missing, nothing is deleted, the filesystem is untouched
and the duplicate row's `file_path` is overwritten with the new file's
(db-relative) path. -/
theorem save_media_dedup (env : Env) (table : List MediaRow) (fs : List String)
    (filePath h : String) (s : Nat) (fileId accessHash mediaType mimeType : Option String)
    (ebd : Option String) (drow : MediaRow)
    (hne : filePath ≠ "") (hfs : filePath ∈ fs) (hh : h ≠ "") (hs : s ≠ 0)
    (hdup : table.find? (fun r => decide (r.fileHash = h) && decide (r.fileSize = s)) =
      some drow) :
    (save_media_file env table fs filePath (some h) (some s) fileId accessHash
      mediaType mimeType ebd).ret = some drow.id ∧
    (save_media_file env table fs filePath (some h) (some s) fileId accessHash
      mediaType mimeType ebd).table.length = table.length ∧
    ((save_media_file env table fs filePath (some h) (some s) fileId accessHash
      mediaType mimeType ebd).table.map fun r => (r.fileHash, r.fileSize)) =
      (table.map fun r => (r.fileHash, r.fileSize)) ∧
    (drow.filePath ∈ fs → drow.filePath ≠ filePath →
      (save_media_file env table fs filePath (some h) (some s) fileId accessHash
        mediaType mimeType ebd).deleted = [filePath]) ∧
    (drow.filePath ∉ fs →
      (save_media_file env table fs filePath (some h) (some s) fileId accessHash
        mediaType mimeType ebd).deleted = [] ∧
      (save_media_file env table fs filePath (some h) (some s) fileId accessHash
        mediaType mimeType ebd).fs = fs ∧
      (save_media_file env table fs filePath (some h) (some s) fileId accessHash
        mediaType mimeType ebd).table = table.map fun r =>
          if r.id = drow.id then
            { r with filePath := dbPathFor ebd filePath,
                     fileId := (fileId.orElse fun _ => r.fileId),
                     accessHash := (accessHash.orElse fun _ => r.accessHash),
                     lastUsedAt := some env.now }
          else r) := by
  have hred : save_media_file env table fs filePath (some h) (some s) fileId accessHash
      mediaType mimeType ebd =
      (if drow.filePath ∉ fs then
        { table := table.map fun r =>
            if r.id = drow.id then
              { r with filePath := dbPathFor ebd filePath,
                       fileId := (fileId.orElse fun _ => r.fileId),
                       accessHash := (accessHash.orElse fun _ => r.accessHash),
                       lastUsedAt := some env.now }
            else r,
          fs := fs, deleted := [], ret := some drow.id }
      else
        let fs1 := if filePath ≠ drow.filePath then fs.erase filePath else fs
        let deleted1 := if filePath ≠ drow.filePath then [filePath] else []
        if pyTruthy fileId then
          let t1 := table.map fun r =>
            if r.id = drow.id then
              { r with fileId := (r.fileId.orElse fun _ => fileId),
                       accessHash := (r.accessHash.orElse fun _ => accessHash),
                       lastUsedAt := some env.now }
            else r
          if pyTruthy mediaType then
            let ext := deterministicExt env mediaType drow.filePath
            let detPath := pyJoin (pyDirname drow.filePath) (fileId.getD "" ++ ext)
            if drow.filePath ≠ detPath ∧ detPath ∉ fs1 then
              if env.renameOk drow.filePath detPath then
                { table := t1.map fun r =>
                    if r.id = drow.id then { r with filePath := detPath } else r,
                  fs := fs1.map fun p => if p = drow.filePath then detPath else p,
                  deleted := deleted1, ret := some drow.id }
              else { table := t1, fs := fs1, deleted := deleted1, ret := some drow.id }
            else { table := t1, fs := fs1, deleted := deleted1, ret := some drow.id }
          else { table := t1, fs := fs1, deleted := deleted1, ret := some drow.id }
        else
          { table := table.map fun r =>
              if r.id = drow.id then { r with lastUsedAt := some env.now } else r,
            fs := fs1, deleted := deleted1, ret := some drow.id }) := by
    unfold save_media_file
    rw [if_neg (by simp [hne, hfs])]
    simp only [if_neg hh, if_neg hs]
    dsimp only
    rw [hdup]
  rw [hred]
  by_cases hdf : drow.filePath ∈ fs
  · rw [if_neg (by simpa using hdf)]
    dsimp only
    split_ifs <;>
      refine ⟨rfl, by simp [List.length_map], ?_, fun hin hne2 => ?_,
        fun habs => absurd hdf habs⟩ <;>
      first
        | rfl
        | exact absurd hne2.symm (by assumption)
        | exact mapPreservesHashSize table _ (fun r => by
            by_cases hr : r.id = drow.id <;> simp [hr])
        | exact (mapPreservesHashSize (table.map _) _ (fun r => by
            by_cases hr : r.id = drow.id <;> simp [hr])).trans
            (mapPreservesHashSize table _ (fun r => by
            by_cases hr : r.id = drow.id <;> simp [hr]))
  · rw [if_pos hdf]
    refine ⟨rfl, by simp, ?_, ?_, ?_⟩
    · exact mapPreservesHashSize table _ fun r => by
        by_cases hr : r.id = drow.id <;> simp [hr]
    · intro hin _; exact absurd hin hdf
    · intro _; exact ⟨rfl, rfl, rfl⟩

/-! ## C1: resolver tier order -/

/-- C1 (counterexample): the index is empty and the file
`media/A1.mp4` exists at the deterministic `<file_id><ext>` name — the
filesystem-probe tier *hits* — yet because its hash cannot be computed
(`get_file_hash` returns `None`, e.g. an unreadable file) the resolver
falls through and returns `(None, media/A1.mp4, need_download=True)`
instead of `(existing_media_id, path, need_download=False)`, refuting
"the first tier that hits returns (existing_media_id, path,
need_download=false)". -/
theorem resolver_probe_cex :
    find_or_create_media_file
        { hashOf := fun _ => none,
          guessExt := fun m => if m = "video/mp4" then some ".mp4" else none,
          sizeOf := fun _ => 0, mediaInfo := fun _ => (none, none, none),
          renameOk := fun _ _ => true, lastRowid := 1, now := "T" }
        [] ["media/A1.mp4"] (some "A1") 100
        (some (.document (some 100) [] (some "video/mp4")))
        (some "MessageMediaDocument") none "media" =
      { table := [], fs := ["media/A1.mp4"], mediaFileId := none,
        path := some "media/A1.mp4", needDownload := true } ∧
    "media/A1.mp4" ∈ ["media/A1.mp4"] := by
  refine ⟨by decide, by decide⟩

/-- C1 (amended): the resolver tries the tiers in the stated order —
metadata match, remote-`file_id` index lookup, deterministic-name
filesystem probe — and the first tier that hits returns its row id with
`need_download = false` without later tiers being consulted; when all
tiers miss it reserves `(None, media_dir/<file_id><ext>, True)`, and with
no usable `file_id` after a metadata miss it returns `(None, None, True)`.
The probe tier, however, indexes the found file and returns its new row
id only when the file's hash is computable: when `get_file_hash` fails,
the resolver reserves a download even though the deterministic file
exists.  (When the probe's `INSERT OR IGNORE` conflicts with an existing
row, the returned id is `cursor.lastrowid` — the last successful insert's
rowid on the shared cursor — so the resolver answers that stale id with
`need_download = false` when one exists and reserves otherwise.) -/
theorem resolver_tiers (env : Env) (table : List MediaRow) (fs : List String)
    (fileId : Option String) (fileSize : Nat) (media : Option TgMedia)
    (mediaType : Option String) (accessHash : Option String) (mediaDir : String) :
    (∀ mid mpath,
      find_existing_media_by_params table
          { extract_telegram_media_metadata env.guessExt media with
            fileSize := fileSize, fileId := fileId } = some (mid, mpath) →
      mid ≠ 0 → mpath ≠ "" →
      (find_or_create_media_file env table fs fileId fileSize media mediaType
          accessHash mediaDir).mediaFileId = some mid ∧
      (find_or_create_media_file env table fs fileId fileSize media mediaType
          accessHash mediaDir).needDownload = false) ∧
    (find_existing_media_by_params table
        { extract_telegram_media_metadata env.guessExt media with
          fileSize := fileSize, fileId := fileId } = none →
      (∀ fid row, fileId = some fid → fid ≠ "" →
        table.find? (fun r => r.fileId = some fid) = some row →
        (find_or_create_media_file env table fs fileId fileSize media mediaType
            accessHash mediaDir).mediaFileId = some row.id ∧
        (find_or_create_media_file env table fs fileId fileSize media mediaType
            accessHash mediaDir).needDownload = false) ∧
      (∀ fid m detPath hsh, fileId = some fid → fid ≠ "" → media = some m →
        table.find? (fun r => r.fileId = some fid) = none →
        generate_media_filename env.guessExt (some fid) (some m) mediaType mediaDir =
          some detPath →
        detPath ∈ fs → env.hashOf detPath = some hsh →
        (table.any fun r => decide (r.filePath = detPath) ||
          (decide (r.fileHash = hsh) && decide (r.fileSize = fileSize))) = false →
        (find_or_create_media_file env table fs fileId fileSize media mediaType
            accessHash mediaDir).mediaFileId = some (nextMediaId table) ∧
        (find_or_create_media_file env table fs fileId fileSize media mediaType
            accessHash mediaDir).path = some detPath ∧
        (find_or_create_media_file env table fs fileId fileSize media mediaType
            accessHash mediaDir).needDownload = false) ∧
      (∀ fid m detPath, fileId = some fid → fid ≠ "" → media = some m →
        table.find? (fun r => r.fileId = some fid) = none →
        generate_media_filename env.guessExt (some fid) (some m) mediaType mediaDir =
          some detPath →
        (detPath ∉ fs ∨ env.hashOf detPath = none) →
        find_or_create_media_file env table fs fileId fileSize media mediaType
            accessHash mediaDir =
          { table := table, fs := fs, mediaFileId := none, path := some detPath,
            needDownload := true }) ∧
      (∀ fid m detPath hsh, fileId = some fid → fid ≠ "" → media = some m →
        table.find? (fun r => r.fileId = some fid) = none →
        generate_media_filename env.guessExt (some fid) (some m) mediaType mediaDir =
          some detPath →
        detPath ∈ fs → env.hashOf detPath = some hsh →
        (table.any fun r => decide (r.filePath = detPath) ||
          (decide (r.fileHash = hsh) && decide (r.fileSize = fileSize))) = true →
        find_or_create_media_file env table fs fileId fileSize media mediaType
            accessHash mediaDir =
          if 0 < env.lastRowid then
            { table := table, fs := fs, mediaFileId := some env.lastRowid,
              path := some detPath, needDownload := false }
          else
            { table := table, fs := fs, mediaFileId := none, path := some detPath,
              needDownload := true }) ∧
      (fileId = none →
        find_or_create_media_file env table fs fileId fileSize media mediaType
            accessHash mediaDir =
          { table := table, fs := fs, mediaFileId := none, path := none,
            needDownload := true })) := by
  constructor
  · intro mid mpath hfind hmid hmp
    unfold find_or_create_media_file
    dsimp only
    rw [hfind]
    dsimp only
    rw [if_pos ⟨hmid, hmp⟩]
    exact ⟨rfl, rfl⟩
  · intro hnone
    refine ⟨?_, ?_, ?_, ?_, ?_⟩
    · intro fid row hfid hfe hrow
      unfold find_or_create_media_file
      dsimp only
      rw [hnone]
      dsimp only
      rw [hfid]
      dsimp only
      rw [if_neg hfe, hrow]
      exact ⟨rfl, rfl⟩
    · intro fid m detPath hsh hfid hfe hm htier2 hgen hdet hhash hany
      unfold find_or_create_media_file focProbeOrReserve
      dsimp only
      rw [hnone]
      dsimp only
      rw [hfid]
      dsimp only
      rw [if_neg hfe, htier2]
      dsimp only
      rw [hm]
      dsimp only
      rw [hgen]
      dsimp only
      rw [if_pos hdet, hhash]
      dsimp only
      rw [if_neg (by simp [hany])]
      exact ⟨rfl, rfl, rfl⟩
    · intro fid m detPath hfid hfe hm htier2 hgen hbad
      unfold find_or_create_media_file focProbeOrReserve
      dsimp only
      rw [hnone]
      dsimp only
      rw [hfid]
      dsimp only
      rw [if_neg hfe, htier2]
      dsimp only
      rw [hm]
      dsimp only
      rw [hgen]
      dsimp only
      rcases hbad with hnf | hh
      · rw [if_neg hnf]
      · by_cases hdet : detPath ∈ fs
        · rw [if_pos hdet, hh]
        · rw [if_neg hdet]
    · intro fid m detPath hsh hfid hfe hm htier2 hgen hdet hhash hany
      unfold find_or_create_media_file focProbeOrReserve
      dsimp only
      rw [hnone]
      dsimp only
      rw [hfid]
      dsimp only
      rw [if_neg hfe, htier2]
      dsimp only
      rw [hm]
      dsimp only
      rw [hgen]
      dsimp only
      rw [if_pos hdet, hhash]
      dsimp only
      rw [if_pos (by simp [hany])]
    · intro hfid
      unfold find_or_create_media_file
      dsimp only
      rw [hnone]
      dsimp only
      rw [hfid]

/-- C1 (witness): with one indexed row of size 100 and a remote
descriptor of declared size 100 and no `file_id`, the metadata tier hits
and the resolver answers `(some 1, need_download = false)`. -/
theorem resolver_tiers_witness :
    (find_existing_media_by_params
        [({ id := 1, filePath := "media/x.bin", fileHash := "H", fileSize := 100 } :
          MediaRow)]
        { extract_telegram_media_metadata
            (Env.guessExt
              { hashOf := fun _ => none, guessExt := fun _ => none,
                sizeOf := fun _ => 0, mediaInfo := fun _ => (none, none, none),
                renameOk := fun _ _ => true, lastRowid := 1, now := "T" }) none with
          fileSize := 100, fileId := none } = some (1, "media/x.bin")) ∧
    (find_or_create_media_file
      { hashOf := fun _ => none, guessExt := fun _ => none, sizeOf := fun _ => 0,
        mediaInfo := fun _ => (none, none, none), renameOk := fun _ _ => true,
        lastRowid := 1, now := "T" }
      [{ id := 1, filePath := "media/x.bin", fileHash := "H", fileSize := 100 }]
      [] none 100 none none none "media").mediaFileId = some 1 ∧
    (find_or_create_media_file
      { hashOf := fun _ => none, guessExt := fun _ => none, sizeOf := fun _ => 0,
        mediaInfo := fun _ => (none, none, none), renameOk := fun _ _ => true,
        lastRowid := 1, now := "T" }
      [{ id := 1, filePath := "media/x.bin", fileHash := "H", fileSize := 100 }]
      [] none 100 none none none "media").needDownload = false :=
  ⟨by decide,
    ((resolver_tiers
      { hashOf := fun _ => none, guessExt := fun _ => none, sizeOf := fun _ => 0,
        mediaInfo := fun _ => (none, none, none), renameOk := fun _ _ => true,
        lastRowid := 1, now := "T" }
      [{ id := 1, filePath := "media/x.bin", fileHash := "H", fileSize := 100 }]
      [] none 100 none none none "media").1 1 "media/x.bin"
      (by decide) (by decide) (by decide)).1,
    ((resolver_tiers
      { hashOf := fun _ => none, guessExt := fun _ => none, sizeOf := fun _ => 0,
        mediaInfo := fun _ => (none, none, none), renameOk := fun _ _ => true,
        lastRowid := 1, now := "T" }
      [{ id := 1, filePath := "media/x.bin", fileHash := "H", fileSize := 100 }]
      [] none 100 none none none "media").1 1 "media/x.bin"
      (by decide) (by decide) (by decide)).2⟩

/-- C2 (witness): one indexed copy of `(H, 5)` at `media/old.bin` that
still exists; saving the freshly downloaded duplicate `media/new.bin`
deletes the new file and returns the existing row id 1. -/
theorem save_media_dedup_witness :
    (List.find?
        (fun r => decide (r.fileHash = "H") && decide (r.fileSize = 5))
        [({ id := 1, filePath := "media/old.bin", fileHash := "H", fileSize := 5 } :
          MediaRow)] =
      some { id := 1, filePath := "media/old.bin", fileHash := "H", fileSize := 5 }) ∧
    (save_media_file
      { hashOf := fun _ => none, guessExt := fun _ => none, sizeOf := fun _ => 0,
        mediaInfo := fun _ => (none, none, none), renameOk := fun _ _ => true,
        lastRowid := 1, now := "T" }
      [{ id := 1, filePath := "media/old.bin", fileHash := "H", fileSize := 5 }]
      ["media/new.bin", "media/old.bin"] "media/new.bin" (some "H") (some 5)
      none none none none none).deleted = ["media/new.bin"] :=
  ⟨by decide,
    (save_media_dedup
      { hashOf := fun _ => none, guessExt := fun _ => none, sizeOf := fun _ => 0,
        mediaInfo := fun _ => (none, none, none), renameOk := fun _ _ => true,
        lastRowid := 1, now := "T" }
      [{ id := 1, filePath := "media/old.bin", fileHash := "H", fileSize := 5 }]
      ["media/new.bin", "media/old.bin"] "media/new.bin" "H" 5 none none none none none
      { id := 1, filePath := "media/old.bin", fileHash := "H", fileSize := 5 }
      (by decide) (by decide) (by decide) (by decide) (by decide)).2.2.2.1
      (by decide) (by decide)⟩

/-- C5 (witness): a flood wait advising 4 s sleeps exactly 4 s. -/
theorem rate_limit_sleep_witness :
    ((download_single_with_retry (fun _ => some (.floodWait 4)) 3 2).sleeps.get? 0 =
      some (.floodWait 4, ((4 : Nat) : ℚ))) ∧ ((4 : Nat) : ℚ) = ((4 : Nat) : ℚ) :=
  ⟨rfl, (rate_limit_sleep (fun _ => some (.floodWait 4)) 3 2).1 0 4 ((4 : Nat) : ℚ) rfl⟩

end TelegramBackup
